import Mathlib

/-!
Shallow embedding of `main.go` from rossf7/cloud-region-to-grid-carbon-mapping.

The program is a sequential batch-enrichment pipeline: it loads a CSV of
cloud regions, resolves missing coordinates through a geocoder, fills the
`electricity_maps_zone` and `watt_time_region` fields through two HTTP
lookup services, and writes all rows back out as CSV.

Modelling decisions:
  * HTTP interactions are abstracted as values of `HTTPResponse α`: either a
    transport failure, or a status code together with a body outcome (a body
    read failure, a JSON unmarshal failure, or the decoded value `α`).  Each
    network-calling Go function becomes a Lean function of the response it
    receives; the driver is parameterised by oracles mapping call arguments
    to responses.
  * Go `float64` coordinates are modelled as `ℚ`.  `strconv.ParseFloat` is
    modelled for plain decimal notation (optional sign, digits, optional
    fraction); exponent/hex/inf/nan forms are never produced by this dataset
    and are not needed by any claim.  `fmt.Sprintf("%f", x)` is modelled as
    fixed-point formatting with six fractional digits.
  * Go errors are the inductive `GoErr`.  Go compares interface values with
    `==` by dynamic type and value; distinct constructors of `GoErr` model
    distinct dynamic Go types, so structural disequality of constructors is
    faithful to Go interface disequality.
  * A Go panic (which crashes the process) is modelled as the distinguished
    error `GoErr.panicErr`, distinct from every returned error.
-/

/-- Go error values that arise in this program.  `errorString` models values
created by `errors.New` / `fmt.Errorf`; `csvParseError` models a
`*csv.ParseError` wrapping an underlying error; `eofErr` models `io.EOF`;
`numError` models the `*strconv.NumError` returned by `ParseFloat`;
`panicErr` models a runtime panic. -/
inductive GoErr where
  | errorString (msg : String)
  | csvParseError (wrapped : GoErr)
  | eofErr
  | numError (input : String)
  | panicErr (msg : String)
deriving DecidableEq, Repr

/-- Go equality `==` on two error interface values compares dynamic type and
value.  The constructors of `GoErr` model distinct dynamic Go types
(`*errors.errorString`, `*csv.ParseError`, ...), so values built from
different constructors are never `==` in Go, matching structural equality
here.  (For two `*errorString` values Go compares pointers; the program only
ever compares a wrapped `*csv.ParseError` against the `errorString` sentinel
`csv.ErrFieldCount`, where the dynamic types already differ.) -/
def goErrEq (a b : GoErr) : Bool := a = b

/-- Go sentinel `csv.ErrFieldCount = errors.New("wrong number of fields")`. -/
def errFieldCount : GoErr := .errorString "wrong number of fields"

/-- Outcome of reading and decoding an HTTP response body of type `α`. -/
inductive BodyOutcome (α : Type) where
  | readErr
  | unmarshalErr
  | parsed (val : α)

/-- An abstract HTTP interaction result: transport failure, or a status code
with a body outcome. -/
inductive HTTPResponse (α : Type) where
  | transportErr
  | resp (status : Nat) (body : BodyOutcome α)

/-- JSON shape of the Electricity Maps response: `{"zone": ...}`. -/
structure ElectricityMapsResponse where
  zone : String

/-- JSON shape of one OpenStreetMap geocoder candidate: `lat`/`lon` strings. -/
structure OpenStreetMapPlace where
  lat : String
  lon : String

/-- JSON shape of the WattTime login response: `{"token": ...}`. -/
structure WattTimeLoginResp where
  token : String

/-- JSON shape of the WattTime region response: `{"region": ...}`. -/
structure WattTimeRegionResp where
  region : String

/-- Constant `awsCloudProvider` from the source. -/
def awsCloudProvider : String := "Amazon Web Services"

/-- Constant `electricityMapsAPIKeyEnvVar` from the source. -/
def electricityMapsAPIKeyEnvVar : String := "ELECTRICITY_MAPS_API_KEY"

/-- Constant `wattTimeUserEnvVar` from the source. -/
def wattTimeUserEnvVar : String := "WATT_TIME_USER"

/-- Constant `wattTimePasswordEnvVar` from the source. -/
def wattTimePasswordEnvVar : String := "WATT_TIME_PASSWORD"

/-- The output header row (variable `header` in the source). -/
def header : List String :=
  ["cloud_provider", "cloud_region", "location", "location_override",
   "location_source", "location_type", "latitude", "longitude",
   "electricity_maps_zone", "watt_time_region"]

/-- One cloud-region record (struct `Region` in the source). -/
structure Region where
  CloudProvider : String
  CloudRegion : String
  Location : String
  LocationOverride : String
  LocationSource : String
  LocationType : String
  Latitude : ℚ
  Longitude : ℚ
  ElectricityMapsZone : String
  WattTimeRegion : String
deriving DecidableEq, Repr

/-- Split a character list around every occurrence of the character `c`.
Like Go `strings.Split` with a one-character separator, the result always
has at least one element. -/
def splitOnChar (c : Char) : List Char → List (List Char)
  | [] => [[]]
  | x :: xs =>
    let r := splitOnChar c xs
    if x = c then [] :: r
    else
      match r with
      | [] => [[x]]
      | y :: ys => (x :: y) :: ys

/-- Go `strings.Split(s, sep)` for the one-character separators this
program uses. -/
def goSplit (s : String) (sep : Char) : List String :=
  (splitOnChar sep s.toList).map String.mk

/-- Go `strings.HasSuffix(s, c)` for a one-character suffix. -/
def hasSuffixChar (s : String) (c : Char) : Bool :=
  match s.toList.getLast? with
  | some x => x = c
  | none => false

/-- Remove the first occurrence of the character `c` from a list: Go
`strings.Replace(s, c, "", 1)` for the one-character pattern this program
uses. -/
def removeFirstChar (c : Char) : List Char → List Char
  | [] => []
  | x :: xs => if x = c then xs else x :: removeFirstChar c xs

/-- Function `parseAWSLocation` from the source:

    split := strings.Split(input, "(")
    if len(split) > 0 { location = split[1] }
    if strings.HasSuffix(location, ")") { location = strings.Replace(location, ")", "", 1) }

Go `strings.Split` with a non-empty separator never returns an empty slice
(it returns at least one element), which `goSplit` matches.  When the input
has no "(", the slice has exactly one element, the guard `len(split) > 0`
still passes, and `split[1]` panics with an index out-of-range runtime
error; the panic is modelled as `none`. -/
def parseAWSLocation (input : String) : Option String :=
  let split := goSplit input '('
  if split.length > 0 then
    match split.get? 1 with
    | none => none
    | some loc =>
      some (if hasSuffixChar loc ')' then String.mk (removeFirstChar ')' loc.toList) else loc)
  else
    some ""

/-- Numeric value of a list of decimal digit characters. -/
def natOfDigits (cs : List Char) : Nat :=
  cs.foldl (fun acc c => acc * 10 + (c.toNat - 48)) 0

/-- Parse an unsigned decimal mantissa: digits, optionally followed by a
point and further digits, with at least one digit overall.  The value of
`ip.fr` is `(ip * 10^|fr| + fr) / 10^|fr|`, built with `mkRat`. -/
def parseUnsigned (cs : List Char) : Option ℚ :=
  let ip := cs.takeWhile Char.isDigit
  let rest := cs.drop ip.length
  match rest with
  | [] => if ip.isEmpty then none else some (mkRat (natOfDigits ip) 1)
  | '.' :: fr =>
    if fr.all Char.isDigit && (!ip.isEmpty || !fr.isEmpty) then
      some (mkRat (natOfDigits ip * 10 ^ fr.length + natOfDigits fr) (10 ^ fr.length))
    else
      none
  | _ => none

/-- Go `strconv.ParseFloat(s, 64)`, modelled for plain decimal notation
(optional sign, decimal digits, optional fraction).  Exponent, hex, `Inf`
and `NaN` forms do not occur in this dataset and are outside the model.
`none` models the `*strconv.NumError` failure. -/
def parseFloat (s : String) : Option ℚ :=
  match s.toList with
  | '-' :: cs => (parseUnsigned cs).map Rat.neg
  | '+' :: cs => parseUnsigned cs
  | cs => parseUnsigned cs

/-- Left-pad a string with '0' up to width `w`. -/
def zeroPad (w : Nat) (s : String) : String :=
  if s.length < w then String.mk (List.replicate (w - s.length) '0') ++ s else s

/-- Fixed-point rendering of a non-negative rational with six fractional
digits: the numerator of `q` scaled to six decimals and rounded to nearest
(`⌊q * 10^6 + 1/2⌋`, computed on `q`'s numerator and denominator), then
split into integer and fractional digits. -/
def sprintfFAbs (q : ℚ) : String :=
  let scaled : Nat := ((q.num * 1000000 * 2 + (q.den : Int)) / (2 * (q.den : Int))).toNat
  toString (scaled / 1000000) ++ "." ++ zeroPad 6 (toString (scaled % 1000000))

/-- Go `fmt.Sprintf("%f", x)`: fixed-point formatting with six fractional
digits.  (Go rounds the underlying binary float to nearest; for the exact
rationals used here the rounding below agrees on every value any claim
evaluates.) -/
def sprintfF (q : ℚ) : String :=
  if q.num < 0 then "-" ++ sprintfFAbs (Rat.neg q) else sprintfFAbs q

/-- Function `getElectricityMapsZone` from the source, as a function of the
HTTP response it receives.  Status 404 ("no coverage") yields the empty
string with no error; any other non-200 status is an error; a body-read or
JSON-unmarshal failure is an error; otherwise the `zone` field is
returned. -/
def getElectricityMapsZone (r : HTTPResponse ElectricityMapsResponse) :
    Except GoErr String :=
  match r with
  | .transportErr => .error (.errorString "transport error")
  | .resp status body =>
    if status = 404 then .ok ""
    else if status ≠ 200 then
      .error (.errorString ("expected 200 response got " ++ toString status))
    else
      match body with
      | .readErr => .error (.errorString "body read error")
      | .unmarshalErr => .error (.errorString "json unmarshal error")
      | .parsed v => .ok v.zone

/-- Function `getGeolocation` from the source, as a function of the HTTP
response it receives.  Non-200 status, body-read failure and unmarshal
failure are errors; with exactly one candidate its `lat`/`lon` strings are
parsed (a parse failure is an error); with zero or several candidates the
result is `(0, 0)` with no error. -/
def getGeolocation (r : HTTPResponse (List OpenStreetMapPlace)) :
    Except GoErr (ℚ × ℚ) :=
  match r with
  | .transportErr => .error (.errorString "transport error")
  | .resp status body =>
    if status ≠ 200 then
      .error (.errorString ("expected 200 response got " ++ toString status))
    else
      match body with
      | .readErr => .error (.errorString "body read error")
      | .unmarshalErr => .error (.errorString "json unmarshal error")
      | .parsed places =>
        match places with
        | [p] =>
          match parseFloat p.lat with
          | none => .error (.numError p.lat)
          | some la =>
            match parseFloat p.lon with
            | none => .error (.numError p.lon)
            | some lo => .ok (la, lo)
        | _ => .ok (0, 0)

/-- Function `getWattTimeAccessToken` from the source, as a function of the
HTTP response it receives.  A non-200 status is an error, but a body-read
failure or a JSON-unmarshal failure returns `("", nil)` — the empty token
with no error (`return "", nil` in the source). -/
def getWattTimeAccessToken (r : HTTPResponse WattTimeLoginResp) :
    Except GoErr String :=
  match r with
  | .transportErr => .error (.errorString "transport error")
  | .resp status body =>
    if status ≠ 200 then
      .error (.errorString ("expected 200 response got " ++ toString status))
    else
      match body with
      | .readErr => .ok ""
      | .unmarshalErr => .ok ""
      | .parsed v => .ok v.token

/-- Function `getWattTimeRegion` from the source, as a function of the HTTP
response it receives.  Status 404 ("no coverage") yields the empty string
with no error; any other non-200 status is an error; a body-read failure or
a JSON-unmarshal failure returns `("", nil)` — empty region with no error
(`return "", nil` in the source). -/
def getWattTimeRegion (r : HTTPResponse WattTimeRegionResp) :
    Except GoErr String :=
  match r with
  | .transportErr => .error (.errorString "transport error")
  | .resp status body =>
    if status = 404 then .ok ""
    else if status ≠ 200 then
      .error (.errorString ("expected 200 response got " ++ toString status))
    else
      match body with
      | .readErr => .ok ""
      | .unmarshalErr => .ok ""
      | .parsed v => .ok v.region

/-- A geocoder oracle: maps the query (location text, location type) to the
HTTP response the geocoder produces. -/
def GeoOracle : Type := String → String → HTTPResponse (List OpenStreetMapPlace)

/-- Coordinate resolution of the `for` loop of `loadRegions` for one
well-formed record, together with the number of geocoding calls it issues
(0 or 1).  Fields are read at the source's indices; only records with the
header's field count reach this code, so `getD` with default `""` reads the
same fields Go's `record[i]` does.  If `latitude` and `longitude` (fields 6
and 7) are both non-empty they are parsed directly, a `ParseFloat` failure
being a fatal error; otherwise the location text is chosen (override first,
AWS normalization when there is no override) and the geocoder is called
once. -/
def resolveCoordinates (geo : GeoOracle) (record : List String) :
    Except GoErr (ℚ × ℚ × Nat) :=
  if record.getD 6 "" ≠ "" ∧ record.getD 7 "" ≠ "" then
    match parseFloat (record.getD 6 "") with
    | none => Except.error (GoErr.numError (record.getD 6 ""))
    | some la =>
      match parseFloat (record.getD 7 "") with
      | none => Except.error (GoErr.numError (record.getD 7 ""))
      | some lo => Except.ok (la, lo, 0)
  else
    let cloudProvider := record.getD 0 ""
    let locationBase := record.getD 2 ""
    let locationOverride := record.getD 3 ""
    let location0 := if locationOverride ≠ "" then locationOverride else locationBase
    let locationType := record.getD 5 ""
    if locationOverride = "" ∧ cloudProvider = awsCloudProvider then
      match parseAWSLocation location0 with
      | none => Except.error (GoErr.panicErr "runtime error: index out of range")
      | some loc => do
        let (la, lo) ← getGeolocation (geo loc locationType)
        Except.ok (la, lo, 1)
    else do
      let (la, lo) ← getGeolocation (geo location0 locationType)
      Except.ok (la, lo, 1)

/-- Construction of one `Region` from a well-formed record: the coordinate
block above followed by the struct literal of the source. -/
def loadRow (geo : GeoOracle) (record : List String) :
    Except GoErr (Region × Nat) := do
  let (latitude, longitude, calls) ← resolveCoordinates geo record
  Except.ok
    ({ CloudProvider := record.getD 0 "",
       CloudRegion := record.getD 1 "",
       Location := record.getD 2 "",
       LocationOverride := record.getD 3 "",
       LocationSource := record.getD 4 "",
       LocationType := record.getD 5 "",
       Latitude := latitude,
       Longitude := longitude,
       ElectricityMapsZone := record.getD 8 "",
       WattTimeRegion := record.getD 9 "" }, calls)

/-- The read loop of `loadRegions`, over the data rows after the header,
returning the loaded regions and the total number of geocoding calls.
Go's `csv.Reader` fixes `FieldsPerRecord` to the header's field count; a
record with a different count is returned together with
`&csv.ParseError{Err: csv.ErrFieldCount}`.  The source then runs

    if err != nil {
      if err == csv.ErrFieldCount { continue }
      break
    }

The `==` comparison is between a `*csv.ParseError` and the `errorString`
sentinel, whose dynamic types differ, so it is false and the loop `break`s,
returning the regions accumulated so far with a nil error; the `continue`
branch is kept here (guarded by the same comparison, `goErrEq`) to mirror
the source.  End of input (`io.EOF`) likewise breaks with a nil error. -/
def loadRows (geo : GeoOracle) (fieldsPerRecord : Nat) :
    List (List String) → Except GoErr (List Region × Nat)
  | [] => Except.ok ([], 0)
  | record :: rest =>
    if record.length ≠ fieldsPerRecord then
      if goErrEq (GoErr.csvParseError errFieldCount) errFieldCount then
        loadRows geo fieldsPerRecord rest
      else
        Except.ok ([], 0)
    else do
      let (region, c) ← loadRow geo record
      let (regions, cs) ← loadRows geo fieldsPerRecord rest
      Except.ok (region :: regions, c + cs)

/-- Function `loadRegions` from the source, over the parsed CSV file (header
row followed by data rows).  Reading the header of an empty file fails with
`io.EOF` and is returned as an error. -/
def loadRegions (geo : GeoOracle) (file : List (List String)) :
    Except GoErr (List Region × Nat) :=
  match file with
  | [] => Except.error GoErr.eofErr
  | hdr :: rows => loadRows geo hdr.length rows

/-- A zone-lookup oracle: maps the call arguments of
`getElectricityMapsZone` (API key, latitude, longitude) to the HTTP response
received. -/
def ZoneOracle : Type := String → ℚ → ℚ → HTTPResponse ElectricityMapsResponse

/-- A region-lookup oracle: maps the call arguments of `getWattTimeRegion`
(bearer token, latitude, longitude) to the HTTP response received. -/
def WTOracle : Type := String → ℚ → ℚ → HTTPResponse WattTimeRegionResp

/-- Body of the enrichment loop of `mainWithError` for one region, together
with the number of zone lookups and of region lookups it performs (each 0
or 1).  A lookup happens only when the corresponding field is empty; its
result (possibly the empty string for "no coverage") is stored, and a
lookup error aborts. -/
def enrichRegion (zone : ZoneOracle) (wt : WTOracle)
    (apiKey accessToken : String) (region : Region) :
    Except GoErr (Region × Nat × Nat) := do
  let (region1, zc) ←
    if region.ElectricityMapsZone = "" then do
      let z ← getElectricityMapsZone (zone apiKey region.Latitude region.Longitude)
      Except.ok ({ region with ElectricityMapsZone := z }, 1)
    else
      Except.ok (region, 0)
  let (region2, rc) ←
    if region1.WattTimeRegion = "" then do
      let rid ← getWattTimeRegion (wt accessToken region1.Latitude region1.Longitude)
      Except.ok ({ region1 with WattTimeRegion := rid }, 1)
    else
      Except.ok (region1, 0)
  Except.ok (region2, zc, rc)

/-- The enrichment loop of `mainWithError` over the whole region list,
returning the enriched regions (in input order) and the total number of
zone lookups and of region lookups.  The first lookup error aborts the
whole loop.  (The fixed one-second sleep after each row has no effect on
the data and is not modelled.) -/
def enrichRegions (zone : ZoneOracle) (wt : WTOracle)
    (apiKey accessToken : String) :
    List Region → Except GoErr (List Region × Nat × Nat)
  | [] => Except.ok ([], 0, 0)
  | r :: rest => do
    let (r2, zc, rc) ← enrichRegion zone wt apiKey accessToken r
    let (rs, zcs, rcs) ← enrichRegions zone wt apiKey accessToken rest
    Except.ok (r2 :: rs, zc + zcs, rc + rcs)

/-- The output record for one region (the `record` slice built in
`mainWithError`): the eight text fields verbatim, the coordinates rendered
with `fmt.Sprintf("%f", ·)`. -/
def regionRecord (r : Region) : List String :=
  [r.CloudProvider, r.CloudRegion, r.Location, r.LocationOverride,
   r.LocationSource, r.LocationType, sprintfF r.Latitude,
   sprintfF r.Longitude, r.ElectricityMapsZone, r.WattTimeRegion]

/-- The three required environment inputs read at startup. -/
structure Env where
  electricityMapsAPIKey : String
  wattTimeUser : String
  wattTimePassword : String

/-- The oracles describing every remote endpoint's behaviour for one run:
the WattTime login endpoint (as a function of user and password), the
geocoder, the Electricity Maps zone endpoint and the WattTime region
endpoint. -/
structure Oracles where
  login : String → String → HTTPResponse WattTimeLoginResp
  geo : GeoOracle
  zone : ZoneOracle
  wtRegion : WTOracle

/-- Function `mainWithError` from the source, as a function of the
environment, the remote oracles and the parsed input CSV file.  The result
is the full CSV output (header row followed by one record per region) on
success; any error is returned before anything is written, so the output
rows exist only in the `ok` case — exactly as in the source, where writing
starts only after the whole enrichment loop has finished.

The first startup check is the source's slip verbatim: it formats the
(empty) value `electricityMapsAPIKey` into the message instead of the
env-var name, `fmt.Errorf("%s env var must be set", electricityMapsAPIKey)`;
the other two checks format the env-var name constants. -/
def mainWithError (env : Env) (o : Oracles) (file : List (List String)) :
    Except GoErr (List (List String)) := do
  if env.electricityMapsAPIKey = "" then
    throw (GoErr.errorString (env.electricityMapsAPIKey ++ " env var must be set"))
  if env.wattTimeUser = "" then
    throw (GoErr.errorString (wattTimeUserEnvVar ++ " env var must be set"))
  if env.wattTimePassword = "" then
    throw (GoErr.errorString (wattTimePasswordEnvVar ++ " env var must be set"))
  let token ← getWattTimeAccessToken (o.login env.wattTimeUser env.wattTimePassword)
  let (regions, _) ← loadRegions o.geo file
  let (enriched, _, _) ←
    enrichRegions o.zone o.wtRegion env.electricityMapsAPIKey token regions
  Except.ok (header :: enriched.map regionRecord)

/-- A stub geocoder returning zero candidates (a "no data" outcome). -/
def stubGeo : GeoOracle := fun _ _ => .resp 200 (.parsed [])

/-- Stub oracles for concrete evaluations: login succeeds with token "tok",
the geocoder returns zero candidates, and both carbon lookups report no
coverage (404). -/
def stubOracles : Oracles :=
  { login := fun _ _ => .resp 200 (.parsed ⟨"tok"⟩)
    geo := stubGeo
    zone := fun _ _ _ => .resp 404 .readErr
    wtRegion := fun _ _ _ => .resp 404 .readErr }

/-- A malformed data row with 9 fields (one short of the header's 10). -/
def malformedRow : List String :=
  ["a", "b", "c", "d", "e", "f", "1.5", "2.5", ""]

/-- A well-formed data row with 10 fields and stored coordinates. -/
def wellFormedRow : List String :=
  ["Amazon Web Services", "us-east-1", "US East (N. Virginia)", "", "manual",
   "city", "1.5", "2.5", "", ""]

/-- The region loaded from `wellFormedRow`. -/
def goodRegion : Region :=
  { CloudProvider := "Amazon Web Services", CloudRegion := "us-east-1",
    Location := "US East (N. Virginia)", LocationOverride := "",
    LocationSource := "manual", LocationType := "city",
    Latitude := mkRat 3 2, Longitude := mkRat 5 2,
    ElectricityMapsZone := "", WattTimeRegion := "" }

/-- A well-formed data row with empty coordinate fields, forcing geocoding. -/
def unresolvedRow : List String :=
  ["Amazon Web Services", "us-east-1", "US East (N. Virginia)", "", "manual",
   "city", "", "", "", ""]

/-- The region loaded from `unresolvedRow` when the geocoder returns zero
candidates: the unresolved `(0, 0)` sentinel. -/
def unresolvedRegion : Region :=
  { CloudProvider := "Amazon Web Services", CloudRegion := "us-east-1",
    Location := "US East (N. Virginia)", LocationOverride := "",
    LocationSource := "manual", LocationType := "city",
    Latitude := 0, Longitude := 0,
    ElectricityMapsZone := "", WattTimeRegion := "" }

/-- A region whose two lookup fields are already populated. -/
def populatedRegion : Region :=
  { goodRegion with ElectricityMapsZone := "US-VA", WattTimeRegion := "PJM_DC" }

/-- Oracles whose zone endpoint answers 500 (an unexpected server error);
login succeeds and the region endpoint reports no coverage. -/
def stub500Oracles : Oracles :=
  { login := fun _ _ => .resp 200 (.parsed ⟨"tok"⟩)
    geo := stubGeo
    zone := fun _ _ _ => .resp 500 .readErr
    wtRegion := fun _ _ _ => .resp 404 .readErr }

/-- A fully supplied environment. -/
def okEnv : Env := ⟨"k", "u", "p"⟩

/-- A well-formed data row whose latitude field is not numeric. -/
def badNumericRow : List String :=
  ["Amazon Web Services", "us-east-1", "US East (N. Virginia)", "", "manual",
   "city", "abc", "2.5", "", ""]

/-- Whether the first list is an initial segment of the second. -/
def startsWithSeq : List Char → List Char → Bool
  | [], _ => true
  | _ :: _, [] => false
  | p :: ps, x :: xs => p = x && startsWithSeq ps xs

/-- Whether `pat` occurs as a contiguous subsequence. -/
def containsSeq (pat : List Char) : List Char → Bool
  | [] => startsWithSeq pat []
  | x :: xs => startsWithSeq pat (x :: xs) || containsSeq pat xs

/-- Whether the string `s` contains `pat` as a substring. -/
def strContains (s pat : String) : Bool := containsSeq pat.toList s.toList

deriving instance DecidableEq for Except

/-- C1: the claim asserts that `parseAWSLocation` returns a defined result
(for example the empty string) on every input without a "(".  On the code
this fails: for "US East" the split has exactly one element, the guard
`len(split) > 0` passes, and `split[1]` is an index-out-of-range panic
(modelled as `none`).  The claim's second half does hold: on
"US East (N. Virginia)" the function returns "N. Virginia". -/
theorem parseAWSLocation_no_paren_panics :
    parseAWSLocation "US East" = none ∧
    (goSplit "US East" '(').length = 1 ∧
    parseAWSLocation "US East (N. Virginia)" = some "N. Virginia" := by
  decide

/-- C2: the claim asserts that a data row with a field count other than 10
is skipped while all subsequent well-formed rows are still loaded.  On the
code this fails: the comparison `err == csv.ErrFieldCount` is between a
wrapped `*csv.ParseError` and the sentinel, hence false (third conjunct),
so the read loop breaks at the malformed row: with the 9-field row present
the following well-formed row is dropped and 0 regions load (first
conjunct), while the same file without the malformed row loads that row
(second conjunct). -/
theorem loadRegions_break_on_malformed :
    loadRegions stubGeo [header, malformedRow, wellFormedRow] = .ok ([], 0) ∧
    loadRegions stubGeo [header, wellFormedRow] = .ok ([goodRegion], 0) ∧
    goErrEq (GoErr.csvParseError errFieldCount) errFieldCount = false := by
  decide

/-- C10: a body-read failure or a JSON-unmarshal failure inside either
WattTime call (`getWattTimeAccessToken` on the login endpoint,
`getWattTimeRegion` on the region endpoint) yields the empty string with no
error instead of propagating the failure.  The body is only read after a
200 status, so these four cases cover every response in which such a
failure can occur. -/
theorem wattTime_body_failure_silent :
    getWattTimeAccessToken (.resp 200 .readErr) = .ok "" ∧
    getWattTimeAccessToken (.resp 200 .unmarshalErr) = .ok "" ∧
    getWattTimeRegion (.resp 200 .readErr) = .ok "" ∧
    getWattTimeRegion (.resp 200 .unmarshalErr) = .ok "" := by
  refine ⟨rfl, rfl, rfl, rfl⟩

/-- C6: when the geocoder response parses to a candidate list whose length
is zero or greater than one, `getGeolocation` returns `(0, 0)` with no
error. -/
theorem getGeolocation_non_single_candidate (places : List OpenStreetMapPlace)
    (h : places.length ≠ 1) :
    getGeolocation (.resp 200 (.parsed places)) = .ok (0, 0) := by
  match places with
  | [] => rfl
  | [p] => simp at h
  | p :: q :: rest => rfl

/-- Witness for C6 at the empty candidate list and at a two-candidate
list. -/
theorem getGeolocation_non_single_candidate_witness :
    getGeolocation (.resp 200 (.parsed ([] : List OpenStreetMapPlace))) = .ok (0, 0) ∧
    getGeolocation (.resp 200 (.parsed [⟨"1", "2"⟩, ⟨"3", "4"⟩])) = .ok (0, 0) :=
  ⟨getGeolocation_non_single_candidate [] (by decide),
   getGeolocation_non_single_candidate [⟨"1", "2"⟩, ⟨"3", "4"⟩] (by decide)⟩

/-- Bind on a successful `Except` computation runs the continuation. -/
theorem exceptOkBind {ε α β : Type} (a : α) (f : α → Except ε β) :
    (Except.ok (ε := ε) a >>= f) = f a := rfl

/-- Bind on a failed `Except` computation propagates the error. -/
theorem exceptErrBind {ε α β : Type} (e : ε) (f : α → Except ε β) :
    (Except.error (α := α) e >>= f) = Except.error (α := β) e := rfl

/-- Unfolding of the enrichment loop on a non-empty region list. -/
theorem enrichRegions_cons (zone : ZoneOracle) (wt : WTOracle) (k t : String)
    (r : Region) (rest : List Region) :
    enrichRegions zone wt k t (r :: rest) =
      enrichRegion zone wt k t r >>= fun x =>
        enrichRegions zone wt k t rest >>= fun y =>
          Except.ok (x.1 :: y.1, x.2.1 + y.2.1, x.2.2 + y.2.2) := rfl

/-- A region with a populated zone field is enriched with no zone lookup and
an unchanged zone value. -/
theorem enrichRegion_zone_populated (zone : ZoneOracle) (wt : WTOracle)
    (k t : String) (r : Region) (r' : Region) (zc rc : Nat)
    (h : r.ElectricityMapsZone ≠ "")
    (hok : enrichRegion zone wt k t r = .ok (r', zc, rc)) :
    zc = 0 ∧ r'.ElectricityMapsZone = r.ElectricityMapsZone := by
  unfold enrichRegion at hok
  simp only [if_neg h, exceptOkBind] at hok
  by_cases hw : r.WattTimeRegion = ""
  · simp only [if_pos hw] at hok
    cases hg : getWattTimeRegion (wt t r.Latitude r.Longitude) with
    | error e => exact Except.noConfusion (hg ▸ hok)
    | ok rid =>
      simp only [hg, exceptOkBind] at hok
      cases hok
      exact ⟨rfl, rfl⟩
  · simp only [if_neg hw, exceptOkBind] at hok
    cases hok
    exact ⟨rfl, rfl⟩

/-- A region with a populated watt-time field is enriched with no region
lookup and an unchanged region value. -/
theorem enrichRegion_region_populated (zone : ZoneOracle) (wt : WTOracle)
    (k t : String) (r : Region) (r' : Region) (zc rc : Nat)
    (h : r.WattTimeRegion ≠ "")
    (hok : enrichRegion zone wt k t r = .ok (r', zc, rc)) :
    rc = 0 ∧ r'.WattTimeRegion = r.WattTimeRegion := by
  unfold enrichRegion at hok
  by_cases hz : r.ElectricityMapsZone = ""
  · simp only [if_pos hz] at hok
    cases hg : getElectricityMapsZone (zone k r.Latitude r.Longitude) with
    | error e => exact Except.noConfusion (hg ▸ hok)
    | ok z =>
      simp only [hg, exceptOkBind, if_neg h] at hok
      cases hok
      exact ⟨rfl, rfl⟩
  · simp only [if_neg hz, exceptOkBind, if_neg h, exceptOkBind] at hok
    cases hok
    exact ⟨rfl, rfl⟩

/-- A region with both lookup fields populated passes through enrichment
unchanged, with zero lookups. -/
theorem enrichRegion_fully_populated (zone : ZoneOracle) (wt : WTOracle)
    (k t : String) (r : Region)
    (h1 : r.ElectricityMapsZone ≠ "") (h2 : r.WattTimeRegion ≠ "") :
    enrichRegion zone wt k t r = .ok (r, 0, 0) := by
  unfold enrichRegion
  simp only [if_neg h1, exceptOkBind, if_neg h2, exceptOkBind]

/-- A fully populated region list passes through the enrichment loop
unchanged, with zero lookups in total. -/
theorem enrichRegions_fully_populated (zone : ZoneOracle) (wt : WTOracle)
    (k t : String) (regions : List Region)
    (h : ∀ r ∈ regions, r.ElectricityMapsZone ≠ "" ∧ r.WattTimeRegion ≠ "") :
    enrichRegions zone wt k t regions = .ok (regions, 0, 0) := by
  induction regions with
  | nil => rfl
  | cons r rest ih =>
    have hr := h r (List.mem_cons_self r rest)
    unfold enrichRegions
    rw [enrichRegion_fully_populated zone wt k t r hr.1 hr.2]
    rw [exceptOkBind, ih (fun s hs => h s (List.mem_cons_of_mem r hs))]
    rfl

/-- C3: enrichment never looks up nor overwrites a non-empty
`electricity_maps_zone` (first conjunct) or `watt_time_region` (second
conjunct); consequently a fully populated region list is re-processed with
zero lookups and no change at all (third conjunct). -/
theorem enrich_skips_populated_fields (zone : ZoneOracle) (wt : WTOracle)
    (k t : String) :
    (∀ r r' zc rc, r.ElectricityMapsZone ≠ "" →
       enrichRegion zone wt k t r = .ok (r', zc, rc) →
       zc = 0 ∧ r'.ElectricityMapsZone = r.ElectricityMapsZone) ∧
    (∀ r r' zc rc, r.WattTimeRegion ≠ "" →
       enrichRegion zone wt k t r = .ok (r', zc, rc) →
       rc = 0 ∧ r'.WattTimeRegion = r.WattTimeRegion) ∧
    (∀ regions, (∀ r ∈ regions, r.ElectricityMapsZone ≠ "" ∧ r.WattTimeRegion ≠ "") →
       enrichRegions zone wt k t regions = .ok (regions, 0, 0)) :=
  ⟨fun r r' zc rc h hok => enrichRegion_zone_populated zone wt k t r r' zc rc h hok,
   fun r r' zc rc h hok => enrichRegion_region_populated zone wt k t r r' zc rc h hok,
   fun regions h => enrichRegions_fully_populated zone wt k t regions h⟩

/-- Witness for C3: a populated region passes through enrichment unchanged
with zero lookups. -/
theorem enrich_skips_populated_fields_witness :
    enrichRegions stubOracles.zone stubOracles.wtRegion "k" "tok" [populatedRegion] =
      .ok ([populatedRegion], 0, 0) :=
  (enrich_skips_populated_fields stubOracles.zone stubOracles.wtRegion "k" "tok").2.2
    [populatedRegion] (by decide)

/-- When both lookups answer 404, a region passes through enrichment with
its fields unchanged (an empty field is filled with the empty string, which
leaves it equal) and one lookup per empty field. -/
theorem enrichRegion_404 (zone : ZoneOracle) (wt : WTOracle) (k t : String)
    (r : Region)
    (b1 : BodyOutcome ElectricityMapsResponse) (b2 : BodyOutcome WattTimeRegionResp)
    (h1 : zone k r.Latitude r.Longitude = .resp 404 b1)
    (h2 : wt t r.Latitude r.Longitude = .resp 404 b2) :
    enrichRegion zone wt k t r =
      .ok (r, (if r.ElectricityMapsZone = "" then 1 else 0),
              (if r.WattTimeRegion = "" then 1 else 0)) := by
  obtain ⟨f1, f2, f3, f4, f5, f6, f7, f8, f9, f10⟩ := r
  simp only at h1 h2
  by_cases hz : f9 = "" <;> by_cases hw : f10 = "" <;>
    simp [enrichRegion, h1, h2, getElectricityMapsZone, getWattTimeRegion,
          exceptOkBind, hz, hw]

/-- C4: a 404 ("not found") response makes the zone lookup and the region
lookup return the empty string with no error (first two conjuncts), and the
enrichment loop then continues with the remaining rows: processing
`r :: rest` equals processing `rest` with `r` passed through in front
(third conjunct). -/
theorem lookups_404_empty_and_continue
    (b1 : BodyOutcome ElectricityMapsResponse) (b2 : BodyOutcome WattTimeRegionResp) :
    getElectricityMapsZone (.resp 404 b1) = .ok "" ∧
    getWattTimeRegion (.resp 404 b2) = .ok "" ∧
    (∀ (zone : ZoneOracle) (wt : WTOracle) (k t : String) (r : Region)
       (rest : List Region),
       zone k r.Latitude r.Longitude = .resp 404 b1 →
       wt t r.Latitude r.Longitude = .resp 404 b2 →
       enrichRegions zone wt k t (r :: rest) =
         (enrichRegions zone wt k t rest).map
           (fun p => (r :: p.1,
                      (if r.ElectricityMapsZone = "" then 1 else 0) + p.2.1,
                      (if r.WattTimeRegion = "" then 1 else 0) + p.2.2))) := by
  refine ⟨rfl, rfl, ?_⟩
  intro zone wt k t r rest h1 h2
  rw [enrichRegions_cons, enrichRegion_404 zone wt k t r b1 b2 h1 h2, exceptOkBind]
  cases enrichRegions zone wt k t rest with
  | error e => rfl
  | ok p => rfl

/-- Witness for C4: with 404 oracles, the empty-zone lookup returns the
empty string and a one-region list is processed by continuing into the
(empty) rest of the list. -/
theorem lookups_404_empty_and_continue_witness :
    getElectricityMapsZone (.resp 404 .readErr) = .ok "" ∧
    enrichRegions stubOracles.zone stubOracles.wtRegion "k" "tok" [goodRegion] =
      (enrichRegions stubOracles.zone stubOracles.wtRegion "k" "tok" []).map
        (fun p => (goodRegion :: p.1, 1 + p.2.1, 1 + p.2.2)) :=
  ⟨(lookups_404_empty_and_continue .readErr .readErr).1,
   (lookups_404_empty_and_continue .readErr .readErr).2.2
     stubOracles.zone stubOracles.wtRegion "k" "tok" goodRegion [] rfl rfl⟩

/-- Bind on a pure `Except` value runs the continuation. -/
theorem exceptPureBind {ε α β : Type} (a : α) (f : α → Except ε β) :
    ((pure a : Except ε α) >>= f) = f a := rfl

/-- Bind after `throw` is the thrown error. -/
theorem exceptThrowBind {ε α β : Type} (e : ε) (f : α → Except ε β) :
    ((throw e : Except ε α) >>= f) = Except.error e := rfl

/-- With the environment supplied, the login and the load successful, an
enrichment-phase error becomes the result of the whole run: the output
construction after the loop is never reached. -/
theorem mainWithError_abort_on_enrich_error (env : Env) (o : Oracles)
    (file : List (List String)) (token : String) (regions : List Region)
    (n : Nat) (e : GoErr)
    (hk : env.electricityMapsAPIKey ≠ "") (hu : env.wattTimeUser ≠ "")
    (hp : env.wattTimePassword ≠ "")
    (htok : getWattTimeAccessToken (o.login env.wattTimeUser env.wattTimePassword) = .ok token)
    (hload : loadRegions o.geo file = .ok (regions, n))
    (henr : enrichRegions o.zone o.wtRegion env.electricityMapsAPIKey token regions = .error e) :
    mainWithError env o file = .error e := by
  unfold mainWithError
  simp only [if_neg hk, if_neg hu, if_neg hp, exceptPureBind, htok, exceptOkBind,
             hload, henr, exceptErrBind]

/-- C5: a response status other than 200 and 404 makes both lookups return
an error naming the status (first two conjuncts), and an enrichment-phase
error makes the whole run return that error: the output — header and rows
alike — is never produced (third conjunct; the model yields output only in
the `ok` case, mirroring the source, which starts writing only after the
whole loop succeeds). -/
theorem lookup_unexpected_status_aborts (s : Nat) (hs200 : s ≠ 200) (hs404 : s ≠ 404)
    (b1 : BodyOutcome ElectricityMapsResponse) (b2 : BodyOutcome WattTimeRegionResp) :
    getElectricityMapsZone (.resp s b1) =
      .error (.errorString ("expected 200 response got " ++ toString s)) ∧
    getWattTimeRegion (.resp s b2) =
      .error (.errorString ("expected 200 response got " ++ toString s)) ∧
    (∀ (env : Env) (o : Oracles) (file : List (List String)) (token : String)
       (regions : List Region) (n : Nat) (e : GoErr),
       env.electricityMapsAPIKey ≠ "" → env.wattTimeUser ≠ "" →
       env.wattTimePassword ≠ "" →
       getWattTimeAccessToken (o.login env.wattTimeUser env.wattTimePassword) = .ok token →
       loadRegions o.geo file = .ok (regions, n) →
       enrichRegions o.zone o.wtRegion env.electricityMapsAPIKey token regions = .error e →
       mainWithError env o file = .error e ∧
       ∀ out, mainWithError env o file ≠ .ok out) := by
  refine ⟨?_, ?_, ?_⟩
  · simp only [getElectricityMapsZone, if_neg hs404, if_pos hs200]
  · simp only [getWattTimeRegion, if_neg hs404, if_pos hs200]
  · intro env o file token regions n e hk hu hp htok hload henr
    have habort := mainWithError_abort_on_enrich_error env o file token regions n e
      hk hu hp htok hload henr
    exact ⟨habort, fun out hout => Except.noConfusion (habort ▸ hout)⟩

/-- Witness for C5: a 500 from the zone endpoint is an error and the run on
a one-row file returns that error instead of any output. -/
theorem lookup_unexpected_status_aborts_witness :
    getElectricityMapsZone (.resp 500 .readErr) =
      .error (.errorString "expected 200 response got 500") ∧
    mainWithError okEnv stub500Oracles [header, wellFormedRow] =
      .error (.errorString "expected 200 response got 500") :=
  ⟨(lookup_unexpected_status_aborts 500 (by decide) (by decide) .readErr .readErr).1,
   ((lookup_unexpected_status_aborts 500 (by decide) (by decide) .readErr .readErr).2.2
     okEnv stub500Oracles [header, wellFormedRow] "tok" [goodRegion] 0
     (.errorString "expected 200 response got 500")
     (by decide) (by decide) (by decide) (by decide) (by decide) (by decide)).1⟩

/-- Unfolding of the read loop on a non-empty row list. -/
theorem loadRows_cons (geo : GeoOracle) (fpr : Nat) (record : List String)
    (rest : List (List String)) :
    loadRows geo fpr (record :: rest) =
      if record.length ≠ fpr then
        if goErrEq (GoErr.csvParseError errFieldCount) errFieldCount then
          loadRows geo fpr rest
        else
          Except.ok ([], 0)
      else
        loadRow geo record >>= fun x =>
          loadRows geo fpr rest >>= fun y =>
            Except.ok (x.1 :: y.1, x.2 + y.2) := rfl

/-- C7: a row with both coordinate fields non-empty is loaded with exactly
the parsed values and zero geocoding calls (first conjunct); a non-numeric
latitude or longitude is a `ParseFloat` error (second and third conjuncts)
which aborts the read loop (fourth conjunct), and a load error becomes the
result of the whole run (fifth conjunct). -/
theorem direct_coordinates_no_geocoding (geo : GeoOracle) (record : List String)
    (h6 : record.getD 6 "" ≠ "") (h7 : record.getD 7 "" ≠ "") :
    (∀ la lo, parseFloat (record.getD 6 "") = some la →
       parseFloat (record.getD 7 "") = some lo →
       loadRow geo record = .ok
         ({ CloudProvider := record.getD 0 "", CloudRegion := record.getD 1 "",
            Location := record.getD 2 "", LocationOverride := record.getD 3 "",
            LocationSource := record.getD 4 "", LocationType := record.getD 5 "",
            Latitude := la, Longitude := lo,
            ElectricityMapsZone := record.getD 8 "",
            WattTimeRegion := record.getD 9 "" }, 0)) ∧
    (parseFloat (record.getD 6 "") = none →
       loadRow geo record = .error (.numError (record.getD 6 ""))) ∧
    (∀ la, parseFloat (record.getD 6 "") = some la →
       parseFloat (record.getD 7 "") = none →
       loadRow geo record = .error (.numError (record.getD 7 ""))) ∧
    (∀ (fpr : Nat) (rest : List (List String)) (e : GoErr),
       record.length = fpr → loadRow geo record = .error e →
       loadRows geo fpr (record :: rest) = .error e) ∧
    (∀ (env : Env) (o : Oracles) (file : List (List String)) (token : String) (e : GoErr),
       env.electricityMapsAPIKey ≠ "" → env.wattTimeUser ≠ "" →
       env.wattTimePassword ≠ "" →
       getWattTimeAccessToken (o.login env.wattTimeUser env.wattTimePassword) = .ok token →
       loadRegions o.geo file = .error e →
       mainWithError env o file = .error e) := by
  refine ⟨?_, ?_, ?_, ?_, ?_⟩
  · intro la lo hla hlo
    unfold loadRow resolveCoordinates
    simp only [if_pos (And.intro h6 h7), hla, hlo, exceptOkBind]
  · intro hla
    unfold loadRow resolveCoordinates
    simp only [if_pos (And.intro h6 h7), hla, exceptErrBind]
  · intro la hla hlo
    unfold loadRow resolveCoordinates
    simp only [if_pos (And.intro h6 h7), hla, hlo, exceptErrBind]
  · intro fpr rest e hlen herr
    have hne : ¬(record.length ≠ fpr) := fun h => h hlen
    rw [loadRows_cons, if_neg hne, herr, exceptErrBind]
  · intro env o file token e hk hu hp htok hload
    unfold mainWithError
    simp only [if_neg hk, if_neg hu, if_neg hp, exceptPureBind, htok, exceptOkBind,
               hload, exceptErrBind]

/-- Witness for C7: the row with coordinates "1.5"/"2.5" loads to exactly
those values with zero geocoding calls, and the row with latitude "abc"
fails with a parse error. -/
theorem direct_coordinates_no_geocoding_witness :
    loadRow stubGeo wellFormedRow = .ok (goodRegion, 0) ∧
    loadRow stubGeo badNumericRow = .error (.numError "abc") :=
  ⟨(direct_coordinates_no_geocoding stubGeo wellFormedRow (by decide) (by decide)).1
     (mkRat 3 2) (mkRat 5 2) (by decide) (by decide),
   (direct_coordinates_no_geocoding stubGeo badNumericRow (by decide) (by decide)).2.1
     (by decide)⟩

/-- C8: the claim asserts every missing required environment input aborts
the run with a message naming the missing variable.  On the code this fails
for the Electricity Maps API key: the source formats the (empty) value
`electricityMapsAPIKey` into the message instead of the env-var name, so
the message is " env var must be set" and does not contain
"ELECTRICITY_MAPS_API_KEY" (first two conjuncts); the WattTime user and
password messages do name their variables (last two conjuncts).  In every
case the run aborts at the very first step, for any oracles and any input
file. -/
theorem missing_env_var_messages (o : Oracles) (file : List (List String))
    (k u p : String) :
    mainWithError ⟨"", u, p⟩ o file = .error (.errorString " env var must be set") ∧
    strContains " env var must be set" electricityMapsAPIKeyEnvVar = false ∧
    (k ≠ "" → mainWithError ⟨k, "", p⟩ o file =
       .error (.errorString "WATT_TIME_USER env var must be set") ∧
       strContains "WATT_TIME_USER env var must be set" wattTimeUserEnvVar = true) ∧
    (k ≠ "" → u ≠ "" → mainWithError ⟨k, u, ""⟩ o file =
       .error (.errorString "WATT_TIME_PASSWORD env var must be set") ∧
       strContains "WATT_TIME_PASSWORD env var must be set" wattTimePasswordEnvVar = true) := by
  refine ⟨?_, by decide, fun hk => ⟨?_, by decide⟩, fun hk hu => ⟨?_, by decide⟩⟩
  · unfold mainWithError
    simp only [if_pos rfl, exceptThrowBind]
    rfl
  · unfold mainWithError
    simp only [if_neg hk, exceptPureBind, if_pos rfl, exceptThrowBind]
    rfl
  · unfold mainWithError
    simp only [if_neg hk, if_neg hu, exceptPureBind, if_pos rfl, exceptThrowBind]
    rfl

/-- Witness for C8: the three messages at concrete environments. -/
theorem missing_env_var_messages_witness :
    mainWithError ⟨"", "u", "p"⟩ stubOracles [] =
      .error (.errorString " env var must be set") ∧
    mainWithError ⟨"k", "", "p"⟩ stubOracles [] =
      .error (.errorString "WATT_TIME_USER env var must be set") ∧
    mainWithError ⟨"k", "u", ""⟩ stubOracles [] =
      .error (.errorString "WATT_TIME_PASSWORD env var must be set") :=
  ⟨(missing_env_var_messages stubOracles [] "k" "u" "p").1,
   ((missing_env_var_messages stubOracles [] "k" "u" "p").2.2.1 (by decide)).1,
   ((missing_env_var_messages stubOracles [] "k" "u" "p").2.2.2 (by decide) (by decide)).1⟩

/-- Loading any record copies fields 8 and 9 verbatim into the two lookup
fields. -/
theorem loadRow_copies_lookup_fields (geo : GeoOracle) (record : List String)
    (r' : Region) (n : Nat) (h : loadRow geo record = .ok (r', n)) :
    r'.ElectricityMapsZone = record.getD 8 "" ∧
    r'.WattTimeRegion = record.getD 9 "" := by
  unfold loadRow at h
  cases hc : resolveCoordinates geo record with
  | error e => rw [hc, exceptErrBind] at h; exact Except.noConfusion h
  | ok v =>
    obtain ⟨la, lo, c⟩ := v
    rw [hc, exceptOkBind] at h
    cases h
    exact ⟨rfl, rfl⟩

/-- Enriching a region whose two lookup fields are both empty performs
exactly one zone lookup and one region lookup whenever it succeeds. -/
theorem enrichRegion_both_empty (zone : ZoneOracle) (wt : WTOracle)
    (k t : String) (r : Region)
    (hz : r.ElectricityMapsZone = "") (hw : r.WattTimeRegion = "")
    (r' : Region) (zc rc : Nat)
    (hok : enrichRegion zone wt k t r = .ok (r', zc, rc)) :
    zc = 1 ∧ rc = 1 := by
  unfold enrichRegion at hok
  simp only [if_pos hz] at hok
  cases hg : getElectricityMapsZone (zone k r.Latitude r.Longitude) with
  | error e => rw [hg, exceptErrBind] at hok; exact Except.noConfusion hok
  | ok z =>
    simp only [hg, exceptOkBind, if_pos hw] at hok
    cases hg2 : getWattTimeRegion (wt t r.Latitude r.Longitude) with
    | error e => rw [hg2, exceptErrBind] at hok; exact Except.noConfusion hok
    | ok rid =>
      simp only [hg2, exceptOkBind] at hok
      cases hok
      exact ⟨rfl, rfl⟩

/-- C9 (amended): for the two lookup fields the round-trip property holds —
an empty `electricity_maps_zone` or `watt_time_region` is written through
as the empty string, survives a reload, and is attempted again (one lookup
each) by the next enrichment pass.  (For coordinates the analogous claim is
refuted by `unresolved_coordinates_not_reattempted`.) -/
theorem empty_lookup_fields_reattempted (r : Region)
    (hz : r.ElectricityMapsZone = "") (hw : r.WattTimeRegion = "") :
    (regionRecord r).getD 8 "" = "" ∧
    (regionRecord r).getD 9 "" = "" ∧
    (∀ (geo : GeoOracle) (r' : Region) (n : Nat),
       loadRow geo (regionRecord r) = .ok (r', n) →
       r'.ElectricityMapsZone = "" ∧ r'.WattTimeRegion = "") ∧
    (∀ (zone : ZoneOracle) (wt : WTOracle) (k t : String) (r' : Region) (zc rc : Nat),
       enrichRegion zone wt k t r = .ok (r', zc, rc) → zc = 1 ∧ rc = 1) := by
  refine ⟨hz, hw, ?_, ?_⟩
  · intro geo r' n h
    have hc := loadRow_copies_lookup_fields geo (regionRecord r) r' n h
    exact ⟨hc.1.trans hz, hc.2.trans hw⟩
  · intro zone wt k t r' zc rc hok
    exact enrichRegion_both_empty zone wt k t r hz hw r' zc rc hok

/-- Witness for the amended C9 at the concrete unresolved region: its
serialized zone field is empty, it reloads with both lookup fields still
empty, and a successful enrichment performs one lookup of each kind. -/
theorem empty_lookup_fields_reattempted_witness :
    (regionRecord unresolvedRegion).getD 8 "" = "" ∧
    unresolvedRegion.ElectricityMapsZone = "" ∧ unresolvedRegion.WattTimeRegion = "" ∧
    (1 = 1 ∧ 1 = 1) :=
  ⟨(empty_lookup_fields_reattempted unresolvedRegion rfl rfl).1,
   ((empty_lookup_fields_reattempted unresolvedRegion rfl rfl).2.2.1
     stubGeo unresolvedRegion 0 (by decide)).1,
   ((empty_lookup_fields_reattempted unresolvedRegion rfl rfl).2.2.1
     stubGeo unresolvedRegion 0 (by decide)).2,
   (empty_lookup_fields_reattempted unresolvedRegion rfl rfl).2.2.2
     stubOracles.zone stubOracles.wtRegion "k" "tok" unresolvedRegion 1 1 (by decide)⟩

/-- C9 (counterexample to the original claim): a row with empty coordinates
whose geocoding finds no data is loaded with the `(0, 0)` sentinel (one
geocoding call), but it is serialized with the non-empty coordinate texts
"0.000000", and reloading that output row performs zero geocoding calls —
the unresolved coordinates are never re-attempted on a later run,
contradicting the claim for the coordinate fields. -/
theorem unresolved_coordinates_not_reattempted :
    loadRow stubGeo unresolvedRow = .ok (unresolvedRegion, 1) ∧
    regionRecord unresolvedRegion =
      ["Amazon Web Services", "us-east-1", "US East (N. Virginia)", "", "manual",
       "city", "0.000000", "0.000000", "", ""] ∧
    loadRow stubGeo (regionRecord unresolvedRegion) = .ok (unresolvedRegion, 0) := by
  decide
